import Mathlib

/-!
# OpenClosedPrinciple.cpp: specification / filter pattern

A shallow embedding of `src/OpenClosedPrinciple.cpp`.

* `Product *` is an address (`Ptr`); the objects the addresses refer to live in
  a `Memory`, which every operation only reads.
* `Product::Items` (`std::vector< Product * >`) is a `List Ptr`.
* A range-`for` loop that `push_back`s into `result` is a left fold whose
  accumulator is `result` and whose step appends at the end.
* The abstract `Specification< T >` is a record holding its single virtual
  method `is_satisfied`, a boolean function of the memory and of the pointer it
  is given.
-/

namespace OpenClosedPrinciple

/-! ## Data model -/

/-- The enumeration `enum class Color { Red, Green, Blue }`. -/
inductive Color where
  | Red
  | Green
  | Blue
deriving DecidableEq

/-- The enumeration `enum class Size { Small, Medium, Large }`. -/
inductive Size where
  | Small
  | Medium
  | Large
deriving DecidableEq

/-- The record `struct Product { std::string name; Color color; Size size; }`. -/
structure Product where
  name : String
  color : Color
  size : Size
deriving DecidableEq

/-- A pointer `T *`: the address of an object. -/
abbrev Ptr := Nat

/-- The objects pointers refer to: `mem p` is the object `*p`. -/
abbrev Memory (T : Type) := Ptr → T

/-- The collection type `typedef std::vector< Product * > Items`. -/
abbrev Product.Items := List Ptr

/-! ## Legacy special-cased filters (`struct ProductFilter`) -/

/-- The loop of `ProductFilter::filterByColor`: scan `items`, pushing back each
pointer whose product has the wanted colour. -/
def ProductFilter.filterByColor (mem : Memory Product) (items : Product.Items)
    (color : Color) : Product.Items :=
  items.foldl
    (fun result item => if (mem item).color == color then result ++ [item] else result) []

/-- The loop of `ProductFilter::filterBySize`. -/
def ProductFilter.filterBySize (mem : Memory Product) (items : Product.Items)
    (size : Size) : Product.Items :=
  items.foldl
    (fun result item => if (mem item).size == size then result ++ [item] else result) []

/-- The loop of `ProductFilter::filterByColorAndSize`; the size is tested before
the colour, as in the source. -/
def ProductFilter.filterByColorAndSize (mem : Memory Product) (items : Product.Items)
    (color : Color) (size : Size) : Product.Items :=
  items.foldl
    (fun result item =>
      if ((mem item).size == size) && ((mem item).color == color) then result ++ [item]
      else result) []

/-! ## Specification / filter framework -/

/-- The interface `template <typename T> struct Specification`, whose only
member is the virtual `bool is_satisfied( T * item )`. -/
structure Specification (T : Type) where
  is_satisfied : Memory T → Ptr → Bool

/-- The method `BetterFilter::filter`: scan `items`, pushing back each pointer
the specification is satisfied by. -/
def BetterFilter.filter (mem : Memory Product) (items : List Ptr)
    (specification : Specification Product) : List Ptr :=
  items.foldl
    (fun result ptrProduct =>
      if specification.is_satisfied mem ptrProduct then result ++ [ptrProduct] else result) []

/-- The specification `struct ColorSpecification`, constructed from its target
colour. -/
def ColorSpecification (color : Color) : Specification Product :=
  ⟨fun mem item => (mem item).color == color⟩

/-- The specification `struct SizeSpecification`, constructed from its target
size. -/
def SizeSpecification (size : Size) : Specification Product :=
  ⟨fun mem item => (mem item).size == size⟩

/-- The combinator `template < typename T > struct AndSpecification`, holding
its two operands. -/
def AndSpecification {T : Type} (first second : Specification T) : Specification T :=
  ⟨fun mem item => first.is_satisfied mem item && second.is_satisfied mem item⟩

/-! ## The driver's data (`main`) -/

/-- The nine products `product1` .. `product9` of `main`, in construction
order. -/
def mainProducts : List Product :=
  [ ⟨"RedAndSmall", Color.Red, Size.Small⟩,
    ⟨"RedAndMedium", Color.Red, Size.Medium⟩,
    ⟨"RedAndLarge", Color.Red, Size.Large⟩,
    ⟨"GreenAndSmall", Color.Green, Size.Small⟩,
    ⟨"GreenAndMedium", Color.Green, Size.Medium⟩,
    ⟨"GreenAndLarge", Color.Green, Size.Large⟩,
    ⟨"BlueAndSmall", Color.Blue, Size.Small⟩,
    ⟨"BlueAndMedium", Color.Blue, Size.Medium⟩,
    ⟨"BlueAndLarge", Color.Blue, Size.Large⟩ ]

/-- The memory of `main`: the local `product1` .. `product9` stand at the
addresses `0` .. `8`. No other address is ever handed to a filter; reading one
gives the last product. -/
def mainMemory : Memory Product :=
  fun p => mainProducts.getD p ⟨"BlueAndLarge", Color.Blue, Size.Large⟩

/-- The collection `allItems` of `main`: the addresses of `product1` ..
`product9`, in the order they are pushed back. -/
def allItems : Product.Items := [0, 1, 2, 3, 4, 5, 6, 7, 8]

/-! ## Name lookups (`Product::getColorName`, `Product::getSizeName`) -/

/-- The value of each enumerator of `Color` in the underlying type `int`: the
enumerators are numbered from zero in declaration order. -/
def Color.value : Color → Int
  | Color.Red => 0
  | Color.Green => 1
  | Color.Blue => 2

/-- The value of each enumerator of `Size` in the underlying type `int`. -/
def Size.value : Size → Int
  | Size.Small => 0
  | Size.Medium => 1
  | Size.Large => 2

/-- The `switch` of `Product::getColorName`, on the value the `Color` object
holds (an object of an enumeration type can hold any value of the underlying
type, which is what the `default` label is for). The result is the text left in
the out-parameter `colorName`, whose old content is the second argument. -/
def Product.getColorName (productColor : Int) (_colorName : String) : String :=
  if productColor = Color.Blue.value then "blue"
  else if productColor = Color.Red.value then "red"
  else if productColor = Color.Green.value then "green"
  else "undefined"

/-- The `switch` of `Product::getSizeName`, on the value the `Size` object
holds. The result is the text left in the out-parameter `sizeName`. -/
def Product.getSizeName (productSize : Int) (_sizeName : String) : String :=
  if productSize = Size.Small.value then "small"
  else if productSize = Size.Medium.value then "medium"
  else if productSize = Size.Large.value then "large"
  else "undefined"

/-! ## The loops with what they evaluate and what they can reach -/

/-- The loop of `BetterFilter::filter` together with the calls it makes: the
first component is `result`, the second the arguments of the successive calls
of `specification.is_satisfied`, one per iteration. -/
def BetterFilter.filterCalls (mem : Memory Product) (items : List Ptr)
    (specification : Specification Product) : List Ptr × List Ptr :=
  items.foldl
    (fun st ptrProduct =>
      (if specification.is_satisfied mem ptrProduct then st.1 ++ [ptrProduct] else st.1,
       st.2 ++ [ptrProduct]))
    ([], [])

/-- An operand of an `AndSpecification`. -/
inductive Operand where
  | first
  | second
deriving DecidableEq

/-- The expression `first.is_satisfied( item ) && second.is_satisfied( item )`
of `AndSpecification::is_satisfied` together with the operands it evaluates, in
order: `&&` evaluates its right operand only when the left one is true. -/
def AndSpecification.evaluation {T : Type} (first second : Specification T)
    (mem : Memory T) (item : Ptr) : List Operand × Bool :=
  if first.is_satisfied mem item then
    ([Operand.first, Operand.second], second.is_satisfied mem item)
  else
    ([Operand.first], false)

/-- The variables a filter call can reach: the memory the products stand in,
the caller's collection (the legacy filters receive it by non-const reference)
and the local `result`. -/
structure FilterState where
  mem : Memory Product
  items : Product.Items
  result : Product.Items

/-- The call `ProductFilter::filterByColor( items, color )` as a state
transformer: `result` starts empty and each iteration leaves the state as it is
or pushes the current pointer back. -/
def ProductFilter.filterByColorRun (mem : Memory Product) (items : Product.Items)
    (color : Color) : FilterState :=
  items.foldl
    (fun st item =>
      if (st.mem item).color == color then { st with result := st.result ++ [item] } else st)
    ⟨mem, items, []⟩

/-- The call `ProductFilter::filterBySize( items, size )` as a state
transformer. -/
def ProductFilter.filterBySizeRun (mem : Memory Product) (items : Product.Items)
    (size : Size) : FilterState :=
  items.foldl
    (fun st item =>
      if (st.mem item).size == size then { st with result := st.result ++ [item] } else st)
    ⟨mem, items, []⟩

/-- The call `ProductFilter::filterByColorAndSize( items, color, size )` as a
state transformer. -/
def ProductFilter.filterByColorAndSizeRun (mem : Memory Product) (items : Product.Items)
    (color : Color) (size : Size) : FilterState :=
  items.foldl
    (fun st item =>
      if ((st.mem item).size == size) && ((st.mem item).color == color) then
        { st with result := st.result ++ [item] }
      else st)
    ⟨mem, items, []⟩

/-- The call `filter( items, specification )` of `BetterFilter` as a state
transformer; the loop runs over the by-value copy of the caller's collection. -/
def BetterFilter.filterRun (mem : Memory Product) (items : List Ptr)
    (specification : Specification Product) : FilterState :=
  items.foldl
    (fun st ptrProduct =>
      if specification.is_satisfied st.mem ptrProduct then
        { st with result := st.result ++ [ptrProduct] }
      else st)
    ⟨mem, items, []⟩

/-! ## The scan-and-select loop -/

/-- A loop that pushes back the elements passing a test, started from any
`result`, ends with `result` followed by the elements that pass. -/
theorem foldl_push_back_eq_filter {α : Type} (p : α → Bool) (items result : List α) :
    items.foldl (fun result item => if p item then result ++ [item] else result) result
      = result ++ items.filter p := by
  induction items generalizing result with
  | nil => simp
  | cons item rest ih =>
    by_cases h : p item = true
    · simp [List.foldl_cons, ih, h]
    · simp [List.foldl_cons, ih, h]

/-- The generic filter, as a list filter. -/
theorem BetterFilter.filter_eq (mem : Memory Product) (items : List Ptr)
    (specification : Specification Product) :
    BetterFilter.filter mem items specification
      = items.filter (fun e => specification.is_satisfied mem e) := by
  unfold BetterFilter.filter
  rw [foldl_push_back_eq_filter (fun e => specification.is_satisfied mem e)]
  simp

/-- The legacy colour filter, as a list filter. -/
theorem ProductFilter.filterByColor_eq (mem : Memory Product) (items : Product.Items)
    (color : Color) :
    ProductFilter.filterByColor mem items color
      = items.filter (fun e => (mem e).color == color) := by
  unfold ProductFilter.filterByColor
  rw [foldl_push_back_eq_filter (fun e => (mem e).color == color)]
  simp

/-- The legacy size filter, as a list filter. -/
theorem ProductFilter.filterBySize_eq (mem : Memory Product) (items : Product.Items)
    (size : Size) :
    ProductFilter.filterBySize mem items size
      = items.filter (fun e => (mem e).size == size) := by
  unfold ProductFilter.filterBySize
  rw [foldl_push_back_eq_filter (fun e => (mem e).size == size)]
  simp

/-- The legacy colour-and-size filter, as a list filter. -/
theorem ProductFilter.filterByColorAndSize_eq (mem : Memory Product) (items : Product.Items)
    (color : Color) (size : Size) :
    ProductFilter.filterByColorAndSize mem items color size
      = items.filter (fun e => ((mem e).size == size) && ((mem e).color == color)) := by
  unfold ProductFilter.filterByColorAndSize
  rw [foldl_push_back_eq_filter (fun e => ((mem e).size == size) && ((mem e).color == color))]
  simp

/-! ## Claims -/

/-- C1: for every sequence `items` and every specification `S`, the generic
filter returns exactly the elements of `items` that `S` is satisfied by, with
their multiplicity and in their original relative order: the result is the list
filter of `items` by the predicate `S.is_satisfied`. -/
theorem C1_filter_eq_list_filter (mem : Memory Product) (items : List Ptr)
    (S : Specification Product) :
    BetterFilter.filter mem items S = List.filter (fun e => S.is_satisfied mem e) items :=
  BetterFilter.filter_eq mem items S

/-- C2: for all specifications `S1`, `S2` and every record `R`, the conjunction
`AndSpecification(S1, S2)` is satisfied by `R` exactly when `S1` and `S2` both
are: its value is `S1.is_satisfied(R) && S2.is_satisfied(R)`. -/
theorem C2_and_specification {T : Type} (mem : Memory T) (S1 S2 : Specification T) (R : Ptr) :
    (AndSpecification S1 S2).is_satisfied mem R
        = (S1.is_satisfied mem R && S2.is_satisfied mem R)
      ∧ ((AndSpecification S1 S2).is_satisfied mem R = true
          ↔ S1.is_satisfied mem R = true ∧ S2.is_satisfied mem R = true) := by
  refine ⟨rfl, ?_⟩
  simp [AndSpecification]

/-- C3: for every collection `C`, colour `X` and size `Y`, the generic filter
with `AndSpecification(ColorSpecification(X), SizeSpecification(Y))` returns the
same sequence of records as the legacy `filterByColorAndSize(C, X, Y)`, which
tests the size before the colour. -/
theorem C3_and_filter_eq_legacy (mem : Memory Product) (C : Product.Items) (X : Color)
    (Y : Size) :
    BetterFilter.filter mem C (AndSpecification (ColorSpecification X) (SizeSpecification Y))
      = ProductFilter.filterByColorAndSize mem C X Y := by
  rw [BetterFilter.filter_eq, ProductFilter.filterByColorAndSize_eq]
  congr 1
  funext e
  simp only [AndSpecification, ColorSpecification, SizeSpecification]
  exact Bool.and_comm _ _

/-- C4: for every collection `C` and every specification `S`, the result of the
generic filter is a subsequence of `C`: it is obtained from `C` by deleting
elements, so the retained elements keep their original relative order. -/
theorem C4_filter_sublist (mem : Memory Product) (C : List Ptr) (S : Specification Product) :
    List.Sublist (BetterFilter.filter mem C S) C := by
  rw [BetterFilter.filter_eq]
  exact List.filter_sublist C

/-- C5: the legacy single-criterion filters return the same sequences as the
generic filter with the corresponding specification: `filterByColor(C, X)` is
`filter(C, ColorSpecification(X))` and `filterBySize(C, Y)` is
`filter(C, SizeSpecification(Y))`. -/
theorem C5_legacy_single_eq_generic (mem : Memory Product) (C : Product.Items) (X : Color)
    (Y : Size) :
    ProductFilter.filterByColor mem C X = BetterFilter.filter mem C (ColorSpecification X)
      ∧ ProductFilter.filterBySize mem C Y = BetterFilter.filter mem C (SizeSpecification Y) := by
  constructor
  · rw [BetterFilter.filter_eq, ProductFilter.filterByColor_eq]
    rfl
  · rw [BetterFilter.filter_eq, ProductFilter.filterBySize_eq]
    rfl

/-- C6: for every target colour `X` and every record `R`,
`ColorSpecification(X)` is satisfied by `R` if and only if the colour of `R` is
`X`; the result is the same for any two records of the same colour, whatever
their names and sizes. -/
theorem C6_color_specification (X : Color) (mem : Memory Product) (R : Ptr) :
    ((ColorSpecification X).is_satisfied mem R = true ↔ (mem R).color = X)
      ∧ ∀ (mem2 : Memory Product) (R2 : Ptr), (mem2 R2).color = (mem R).color →
          (ColorSpecification X).is_satisfied mem2 R2
            = (ColorSpecification X).is_satisfied mem R := by
  constructor
  · simp [ColorSpecification]
  · intro mem2 R2 h
    simp [ColorSpecification, h]

/-- C6 at the driver's data: "GreenAndLarge" and "GreenAndSmall" differ in name
and size, have the same colour, and get the same answer from
`ColorSpecification(Green)`. -/
theorem C6_color_specification_witness :
    (mainMemory 5).color = (mainMemory 3).color
      ∧ (ColorSpecification Color.Green).is_satisfied mainMemory 5
          = (ColorSpecification Color.Green).is_satisfied mainMemory 3 :=
  ⟨rfl, (C6_color_specification Color.Green mainMemory 3).2 mainMemory 5 rfl⟩

/-- C7: for every target size `Y` and every record `R`, `SizeSpecification(Y)`
is satisfied by `R` if and only if the size of `R` is `Y`; the result is the
same for any two records of the same size, whatever their names and colours. -/
theorem C7_size_specification (Y : Size) (mem : Memory Product) (R : Ptr) :
    ((SizeSpecification Y).is_satisfied mem R = true ↔ (mem R).size = Y)
      ∧ ∀ (mem2 : Memory Product) (R2 : Ptr), (mem2 R2).size = (mem R).size →
          (SizeSpecification Y).is_satisfied mem2 R2
            = (SizeSpecification Y).is_satisfied mem R := by
  constructor
  · simp [SizeSpecification]
  · intro mem2 R2 h
    simp [SizeSpecification, h]

/-- C7 at the driver's data: "BlueAndMedium" and "RedAndMedium" differ in name
and colour, have the same size, and get the same answer from
`SizeSpecification(Medium)`. -/
theorem C7_size_specification_witness :
    (mainMemory 7).size = (mainMemory 1).size
      ∧ (SizeSpecification Size.Medium).is_satisfied mainMemory 7
          = (SizeSpecification Size.Medium).is_satisfied mainMemory 1 :=
  ⟨rfl, (C7_size_specification Size.Medium mainMemory 1).2 mainMemory 7 rfl⟩

/-- C8: for every record `R` and every specification `S`, filtering the
one-element collection `[R]` returns `[R]` if `S` is satisfied by `R`, and the
empty sequence otherwise. -/
theorem C8_filter_singleton (mem : Memory Product) (R : Ptr) (S : Specification Product) :
    BetterFilter.filter mem [R] S = if S.is_satisfied mem R then [R] else [] := by
  simp [BetterFilter.filter]

/-- C9: on the nine records the driver builds, in construction order, the
generic filter with `ColorSpecification(Green)` returns exactly the three records
named "GreenAndSmall", "GreenAndMedium", "GreenAndLarge", in that order. -/
theorem C9_driver_green :
    List.map mainMemory allItems = mainProducts
      ∧ BetterFilter.filter mainMemory allItems (ColorSpecification Color.Green) = [3, 4, 5]
      ∧ List.map mainMemory
            (BetterFilter.filter mainMemory allItems (ColorSpecification Color.Green))
          = [⟨"GreenAndSmall", Color.Green, Size.Small⟩,
             ⟨"GreenAndMedium", Color.Green, Size.Medium⟩,
             ⟨"GreenAndLarge", Color.Green, Size.Large⟩] := by
  refine ⟨rfl, rfl, rfl⟩

/-- C10: on the nine records the driver builds, the generic filter with
`AndSpecification(ColorSpecification(Blue), SizeSpecification(Large))` returns
exactly one record, the one named "BlueAndLarge". -/
theorem C10_driver_blue_and_large :
    BetterFilter.filter mainMemory allItems
          (AndSpecification (ColorSpecification Color.Blue) (SizeSpecification Size.Large)) = [8]
      ∧ List.map (fun p => (mainMemory p).name)
            (BetterFilter.filter mainMemory allItems
              (AndSpecification (ColorSpecification Color.Blue) (SizeSpecification Size.Large)))
          = ["BlueAndLarge"] := by
  refine ⟨rfl, rfl⟩

/-! ## Lemmas on the instrumented loops and on the partition by an attribute -/

/-- The loop that also records its calls, started from any state: `result`
grows by the elements that pass, the record of calls by every element. -/
theorem foldl_calls_eq {α : Type} (p : α → Bool) (items : List α) (st : List α × List α) :
    items.foldl (fun st item => (if p item then st.1 ++ [item] else st.1, st.2 ++ [item])) st
      = (st.1 ++ items.filter p, st.2 ++ items) := by
  induction items generalizing st with
  | nil => simp
  | cons item rest ih =>
    by_cases h : p item = true
    · simp [List.foldl_cons, ih, h]
    · simp [List.foldl_cons, ih, h]

/-- The instrumented generic filter returns the result of the generic filter
and calls the specification once per element, in order. -/
theorem BetterFilter.filterCalls_eq (mem : Memory Product) (items : List Ptr)
    (specification : Specification Product) :
    BetterFilter.filterCalls mem items specification
      = (BetterFilter.filter mem items specification, items) := by
  unfold BetterFilter.filterCalls
  rw [foldl_calls_eq (fun e => specification.is_satisfied mem e), BetterFilter.filter_eq]
  simp

/-- A scan-and-select loop over the whole state, started from any state: only
`result` changes, by the elements that pass the test. -/
theorem foldl_state_eq (test : Memory Product → Ptr → Bool) (l : List Ptr) (st : FilterState) :
    l.foldl
        (fun st item => if test st.mem item then { st with result := st.result ++ [item] } else st)
        st
      = { st with result := st.result ++ l.filter (test st.mem) } := by
  induction l generalizing st with
  | nil => simp
  | cons item rest ih =>
    by_cases h : test st.mem item = true
    · simp [List.foldl_cons, ih, h]
    · simp [List.foldl_cons, ih, h]

/-- The generic filter as a state transformer: the final state. -/
theorem BetterFilter.filterRun_eq (mem : Memory Product) (items : List Ptr)
    (specification : Specification Product) :
    BetterFilter.filterRun mem items specification
      = ⟨mem, items, BetterFilter.filter mem items specification⟩ := by
  unfold BetterFilter.filterRun
  rw [foldl_state_eq (fun m e => specification.is_satisfied m e), BetterFilter.filter_eq]
  simp

/-- The legacy colour filter as a state transformer: the final state. -/
theorem ProductFilter.filterByColorRun_eq (mem : Memory Product) (items : Product.Items)
    (color : Color) :
    ProductFilter.filterByColorRun mem items color
      = ⟨mem, items, ProductFilter.filterByColor mem items color⟩ := by
  unfold ProductFilter.filterByColorRun
  rw [foldl_state_eq (fun m e => (m e).color == color), ProductFilter.filterByColor_eq]
  simp

/-- The legacy size filter as a state transformer: the final state. -/
theorem ProductFilter.filterBySizeRun_eq (mem : Memory Product) (items : Product.Items)
    (size : Size) :
    ProductFilter.filterBySizeRun mem items size
      = ⟨mem, items, ProductFilter.filterBySize mem items size⟩ := by
  unfold ProductFilter.filterBySizeRun
  rw [foldl_state_eq (fun m e => (m e).size == size), ProductFilter.filterBySize_eq]
  simp

/-- The legacy colour-and-size filter as a state transformer: the final
state. -/
theorem ProductFilter.filterByColorAndSizeRun_eq (mem : Memory Product)
    (items : Product.Items) (color : Color) (size : Size) :
    ProductFilter.filterByColorAndSizeRun mem items color size
      = ⟨mem, items, ProductFilter.filterByColorAndSize mem items color size⟩ := by
  unfold ProductFilter.filterByColorAndSizeRun
  rw [foldl_state_eq (fun m e => ((m e).size == size) && ((m e).color == color)),
    ProductFilter.filterByColorAndSize_eq]
  simp

/-- The three colours split any list: the lengths of the three selections add
up to the length of the list. -/
theorem length_filter_color (mem : Memory Product) (C : List Ptr) :
    (C.filter (fun e => (mem e).color == Color.Red)).length
        + (C.filter (fun e => (mem e).color == Color.Green)).length
        + (C.filter (fun e => (mem e).color == Color.Blue)).length
      = C.length := by
  induction C with
  | nil => rfl
  | cons a t ih =>
    cases h : (mem a).color <;> simp [List.filter_cons, h] <;> omega

/-- The three sizes split any list: the lengths of the three selections add up
to the length of the list. -/
theorem length_filter_size (mem : Memory Product) (C : List Ptr) :
    (C.filter (fun e => (mem e).size == Size.Small)).length
        + (C.filter (fun e => (mem e).size == Size.Medium)).length
        + (C.filter (fun e => (mem e).size == Size.Large)).length
      = C.length := by
  induction C with
  | nil => rfl
  | cons a t ih =>
    cases h : (mem a).size <;> simp [List.filter_cons, h] <;> omega

/-- The `default` label of `getColorName` and of `getSizeName` is what a value
outside the enumerators reaches. -/
theorem getName_out_of_range (old : String) :
    Product.getColorName 3 old = "undefined" ∧ Product.getSizeName 3 old = "undefined" := by
  constructor <;> rfl

/-! ## Claims, continued -/

/-- C11: for every specification `S`, the generic filter applied to the empty
collection returns the empty collection, and makes no call of
`S.is_satisfied` on the way. -/
theorem C11_filter_empty (mem : Memory Product) (S : Specification Product) :
    BetterFilter.filter mem [] S = []
      ∧ BetterFilter.filterCalls mem [] S = ([], []) :=
  ⟨rfl, rfl⟩

/-- C12: filtering has no error outcome: for every collection `C` and
specification `S` the generic filter returns a sequence, no longer than `C`;
the sequence is empty if `S` rejects every element of `C`, and conversely an
empty result means `S` rejected every element of `C`. -/
theorem C12_filter_total_and_empty (mem : Memory Product) (C : List Ptr)
    (S : Specification Product) :
    (∃ result : List Ptr, BetterFilter.filter mem C S = result ∧ result.length ≤ C.length)
      ∧ ((∀ e ∈ C, S.is_satisfied mem e = false) → BetterFilter.filter mem C S = [])
      ∧ (BetterFilter.filter mem C S = [] → ∀ e ∈ C, S.is_satisfied mem e = false) := by
  rw [BetterFilter.filter_eq]
  refine ⟨⟨_, rfl, List.length_filter_le _ C⟩, ?_, ?_⟩
  · intro h
    simpa [List.filter_eq_nil_iff] using h
  · intro h
    simpa [List.filter_eq_nil_iff] using h

/-- C12 at the driver's data: no product is both red and blue, and filtering
the nine products by that conjunction returns the empty sequence. -/
theorem C12_filter_total_and_empty_witness :
    (∀ e ∈ allItems,
        (AndSpecification (ColorSpecification Color.Red) (ColorSpecification Color.Blue)).is_satisfied
          mainMemory e = false)
      ∧ BetterFilter.filter mainMemory allItems
          (AndSpecification (ColorSpecification Color.Red) (ColorSpecification Color.Blue)) = [] :=
  ⟨by decide,
   (C12_filter_total_and_empty mainMemory allItems
      (AndSpecification (ColorSpecification Color.Red) (ColorSpecification Color.Blue))).2.1
      (by decide)⟩

/-- C13: filtering never mutates its input: after a call of the generic filter
or of one of the three legacy filters, the memory holds the same records (so
every name, colour and size is unchanged), the source collection is the same
sequence, `result` is what the filter returns, and every record of the output
was in the input. -/
theorem C13_filters_do_not_mutate (mem : Memory Product) (C : Product.Items)
    (S : Specification Product) (X : Color) (Y : Size) :
    ((BetterFilter.filterRun mem C S).mem = mem
        ∧ (BetterFilter.filterRun mem C S).items = C
        ∧ (BetterFilter.filterRun mem C S).result = BetterFilter.filter mem C S
        ∧ ∀ p ∈ BetterFilter.filter mem C S, p ∈ C)
      ∧ ((ProductFilter.filterByColorRun mem C X).mem = mem
        ∧ (ProductFilter.filterByColorRun mem C X).items = C
        ∧ (ProductFilter.filterByColorRun mem C X).result = ProductFilter.filterByColor mem C X
        ∧ ∀ p ∈ ProductFilter.filterByColor mem C X, p ∈ C)
      ∧ ((ProductFilter.filterBySizeRun mem C Y).mem = mem
        ∧ (ProductFilter.filterBySizeRun mem C Y).items = C
        ∧ (ProductFilter.filterBySizeRun mem C Y).result = ProductFilter.filterBySize mem C Y
        ∧ ∀ p ∈ ProductFilter.filterBySize mem C Y, p ∈ C)
      ∧ ((ProductFilter.filterByColorAndSizeRun mem C X Y).mem = mem
        ∧ (ProductFilter.filterByColorAndSizeRun mem C X Y).items = C
        ∧ (ProductFilter.filterByColorAndSizeRun mem C X Y).result
            = ProductFilter.filterByColorAndSize mem C X Y
        ∧ ∀ p ∈ ProductFilter.filterByColorAndSize mem C X Y, p ∈ C) := by
  rw [BetterFilter.filterRun_eq, ProductFilter.filterByColorRun_eq,
    ProductFilter.filterBySizeRun_eq, ProductFilter.filterByColorAndSizeRun_eq]
  refine ⟨⟨rfl, rfl, rfl, ?_⟩, ⟨rfl, rfl, rfl, ?_⟩, ⟨rfl, rfl, rfl, ?_⟩, ⟨rfl, rfl, rfl, ?_⟩⟩
  · intro p hp
    rw [BetterFilter.filter_eq] at hp
    exact (List.mem_filter.mp hp).1
  · intro p hp
    rw [ProductFilter.filterByColor_eq] at hp
    exact (List.mem_filter.mp hp).1
  · intro p hp
    rw [ProductFilter.filterBySize_eq] at hp
    exact (List.mem_filter.mp hp).1
  · intro p hp
    rw [ProductFilter.filterByColorAndSize_eq] at hp
    exact (List.mem_filter.mp hp).1

/-- C13 at the driver's data: the pointer to "GreenAndMedium" is in the result
of the legacy colour-and-size filter for green and medium, and in `allItems`. -/
theorem C13_filters_do_not_mutate_witness :
    4 ∈ ProductFilter.filterByColorAndSize mainMemory allItems Color.Green Size.Medium
      ∧ 4 ∈ allItems :=
  ⟨by decide,
   (C13_filters_do_not_mutate mainMemory allItems (ColorSpecification Color.Green) Color.Green
      Size.Medium).2.2.2.2.2.2 4 (by decide)⟩

/-- C14: the "undefined" fallback of the name lookups is not reached by a
well-formed value: for the colours Red, Green, Blue `getColorName` sets the name
to "red", "green", "blue", for the sizes Small, Medium, Large `getSizeName` sets
it to "small", "medium", "large", and none of these is "undefined". -/
theorem C14_names_defined (old : String) :
    (Product.getColorName Color.Red.value old = "red"
        ∧ Product.getColorName Color.Green.value old = "green"
        ∧ Product.getColorName Color.Blue.value old = "blue"
        ∧ ∀ c : Color, Product.getColorName c.value old ≠ "undefined")
      ∧ (Product.getSizeName Size.Small.value old = "small"
        ∧ Product.getSizeName Size.Medium.value old = "medium"
        ∧ Product.getSizeName Size.Large.value old = "large"
        ∧ ∀ s : Size, Product.getSizeName s.value old ≠ "undefined") := by
  refine ⟨⟨rfl, rfl, rfl, ?_⟩, ⟨rfl, rfl, rfl, ?_⟩⟩
  · intro c
    cases c <;> simp [Product.getColorName, Color.value]
  · intro s
    cases s <;> simp [Product.getSizeName, Size.value]

/-- C15: `AndSpecification` is commutative in truth value: for all
specifications `S1`, `S2` and every record `R`, `AndSpecification(S1, S2)` and
`AndSpecification(S2, S1)` give the same answer on `R`, although the code
evaluates `first` before `second` and evaluates `second` only when `first` is
satisfied. -/
theorem C15_and_commutative {T : Type} (mem : Memory T) (S1 S2 : Specification T) (R : Ptr) :
    (AndSpecification S1 S2).is_satisfied mem R = (AndSpecification S2 S1).is_satisfied mem R
      ∧ (AndSpecification.evaluation S1 S2 mem R).2 = (AndSpecification S1 S2).is_satisfied mem R
      ∧ (AndSpecification.evaluation S1 S2 mem R).1.head? = some Operand.first
      ∧ (Operand.second ∈ (AndSpecification.evaluation S1 S2 mem R).1
          ↔ S1.is_satisfied mem R = true) := by
  refine ⟨Bool.and_comm _ _, ?_, ?_, ?_⟩
  · cases h : S1.is_satisfied mem R <;> simp [AndSpecification.evaluation, AndSpecification, h]
  · cases h : S1.is_satisfied mem R <;> simp [AndSpecification.evaluation, h]
  · cases h : S1.is_satisfied mem R <;> simp [AndSpecification.evaluation, h]

/-- C16: `AndSpecification` composes into larger conjunctions: for all
specifications `S1`, `S2`, `S3` and every record `R`,
`AndSpecification(AndSpecification(S1, S2), S3)` is satisfied by `R` if and only
if `S1`, `S2` and `S3` all are, and it gives the same answer as
`AndSpecification(S1, AndSpecification(S2, S3))`. -/
theorem C16_and_associative {T : Type} (mem : Memory T) (S1 S2 S3 : Specification T)
    (R : Ptr) :
    ((AndSpecification (AndSpecification S1 S2) S3).is_satisfied mem R = true
        ↔ S1.is_satisfied mem R = true ∧ S2.is_satisfied mem R = true
            ∧ S3.is_satisfied mem R = true)
      ∧ (AndSpecification (AndSpecification S1 S2) S3).is_satisfied mem R
          = (AndSpecification S1 (AndSpecification S2 S3)).is_satisfied mem R := by
  constructor
  · simp [AndSpecification, and_assoc]
  · exact Bool.and_assoc _ _ _

/-- C17: filtering by a conjunction is filtering in two passes: for every
collection `C` and specifications `S1`, `S2`, the generic filter with
`AndSpecification(S1, S2)` returns what filtering by `S1` and then by `S2`
returns, and also what filtering by `S2` and then by `S1` returns. -/
theorem C17_filter_and_two_passes (mem : Memory Product) (C : List Ptr)
    (S1 S2 : Specification Product) :
    BetterFilter.filter mem C (AndSpecification S1 S2)
        = BetterFilter.filter mem (BetterFilter.filter mem C S1) S2
      ∧ BetterFilter.filter mem C (AndSpecification S1 S2)
        = BetterFilter.filter mem (BetterFilter.filter mem C S2) S1 := by
  simp only [BetterFilter.filter_eq, List.filter_filter, AndSpecification]
  constructor
  · congr 1
    funext e
    exact Bool.and_comm _ _
  · trivial

/-- C18: the generic filter is idempotent for a fixed specification: filtering
the result of `filter(C, S)` by `S` again returns it unchanged, and every
element of `filter(C, S)` satisfies `S`. -/
theorem C18_filter_idempotent (mem : Memory Product) (C : List Ptr)
    (S : Specification Product) :
    BetterFilter.filter mem (BetterFilter.filter mem C S) S = BetterFilter.filter mem C S
      ∧ ∀ e ∈ BetterFilter.filter mem C S, S.is_satisfied mem e = true := by
  simp only [BetterFilter.filter_eq, List.filter_filter, Bool.and_self]
  refine ⟨trivial, ?_⟩
  intro e he
  exact (List.mem_filter.mp he).2

/-- C18 at the driver's data: the pointer to "BlueAndSmall" is in the result of
filtering the nine products by blue, and satisfies `ColorSpecification(Blue)`. -/
theorem C18_filter_idempotent_witness :
    6 ∈ BetterFilter.filter mainMemory allItems (ColorSpecification Color.Blue)
      ∧ (ColorSpecification Color.Blue).is_satisfied mainMemory 6 = true :=
  ⟨by decide,
   (C18_filter_idempotent mainMemory allItems (ColorSpecification Color.Blue)).2 6 (by decide)⟩

/-- C19: the three colour filters partition any collection: every record of
`C` is in the result of exactly one of `filterByColor(C, Red)`,
`filterByColor(C, Green)`, `filterByColor(C, Blue)`, and the three result
lengths add up to the length of `C`; the same holds for `filterBySize` over
Small, Medium, Large. -/
theorem C19_color_and_size_partition (mem : Memory Product) (C : Product.Items) :
    ((∀ p ∈ C,
          (p ∈ ProductFilter.filterByColor mem C Color.Red
              ∧ p ∉ ProductFilter.filterByColor mem C Color.Green
              ∧ p ∉ ProductFilter.filterByColor mem C Color.Blue)
            ∨ (p ∉ ProductFilter.filterByColor mem C Color.Red
              ∧ p ∈ ProductFilter.filterByColor mem C Color.Green
              ∧ p ∉ ProductFilter.filterByColor mem C Color.Blue)
            ∨ (p ∉ ProductFilter.filterByColor mem C Color.Red
              ∧ p ∉ ProductFilter.filterByColor mem C Color.Green
              ∧ p ∈ ProductFilter.filterByColor mem C Color.Blue))
        ∧ (ProductFilter.filterByColor mem C Color.Red).length
            + (ProductFilter.filterByColor mem C Color.Green).length
            + (ProductFilter.filterByColor mem C Color.Blue).length
          = C.length)
      ∧ ((∀ p ∈ C,
          (p ∈ ProductFilter.filterBySize mem C Size.Small
              ∧ p ∉ ProductFilter.filterBySize mem C Size.Medium
              ∧ p ∉ ProductFilter.filterBySize mem C Size.Large)
            ∨ (p ∉ ProductFilter.filterBySize mem C Size.Small
              ∧ p ∈ ProductFilter.filterBySize mem C Size.Medium
              ∧ p ∉ ProductFilter.filterBySize mem C Size.Large)
            ∨ (p ∉ ProductFilter.filterBySize mem C Size.Small
              ∧ p ∉ ProductFilter.filterBySize mem C Size.Medium
              ∧ p ∈ ProductFilter.filterBySize mem C Size.Large))
        ∧ (ProductFilter.filterBySize mem C Size.Small).length
            + (ProductFilter.filterBySize mem C Size.Medium).length
            + (ProductFilter.filterBySize mem C Size.Large).length
          = C.length) := by
  simp only [ProductFilter.filterByColor_eq, ProductFilter.filterBySize_eq]
  refine ⟨⟨?_, length_filter_color mem C⟩, ⟨?_, length_filter_size mem C⟩⟩
  · intro p hp
    cases h : (mem p).color <;> simp [List.mem_filter, hp, h]
  · intro p hp
    cases h : (mem p).size <;> simp [List.mem_filter, hp, h]

/-- C19 at the driver's data: the pointer to "RedAndLarge" is in `allItems`, in
the red selection and in neither the green nor the blue one. -/
theorem C19_color_and_size_partition_witness :
    2 ∈ allItems
      ∧ ((2 ∈ ProductFilter.filterByColor mainMemory allItems Color.Red
              ∧ 2 ∉ ProductFilter.filterByColor mainMemory allItems Color.Green
              ∧ 2 ∉ ProductFilter.filterByColor mainMemory allItems Color.Blue)
            ∨ (2 ∉ ProductFilter.filterByColor mainMemory allItems Color.Red
              ∧ 2 ∈ ProductFilter.filterByColor mainMemory allItems Color.Green
              ∧ 2 ∉ ProductFilter.filterByColor mainMemory allItems Color.Blue)
            ∨ (2 ∉ ProductFilter.filterByColor mainMemory allItems Color.Red
              ∧ 2 ∉ ProductFilter.filterByColor mainMemory allItems Color.Green
              ∧ 2 ∈ ProductFilter.filterByColor mainMemory allItems Color.Blue)) :=
  ⟨by decide, (C19_color_and_size_partition mainMemory allItems).1.1 2 (by decide)⟩

end OpenClosedPrinciple
